import Mathlib

/-!
Shallow embedding of the Janus WebRTC Foxglove panel
(`src/unnamed/part_000`, component `JanusStreamPanel`).

The panel is a single React component.  Its mutable runtime state (the
React refs `janusRef`, `streamingRef`, `bitrateTimerRef`, the video
element, the `streamState` React state and the log list) is collected
into one record `PanelModel`; each callback or handler of the source
becomes a pure function `PanelModel -> PanelModel`.  Requests sent via
the plugin handle are recorded in an emission list `sent`.  Browser
timers are made explicit: `liveTimers` is the set of interval handles
currently alive, `nextTimerId` generates fresh handles.  The video
element is modelled as mounted for the entire modelled lifetime (all
the modelled callbacks run after the first render; the source guards
`videoRef.current` accordingly and asserts it non-null in
`onremotetrack`).  `track.stop()` from the browser API is recorded in
the ghost field `stoppedTracks`.  Asynchronous continuations (the
deferred `play()` settlement) are modelled as separate events.
-/

set_option autoImplicit false

/-- Connection lifecycle states, from the `ConnectionState` enum. -/
inductive ConnectionState
  | DISCONNECTED
  | INITIALIZING
  | CONNECTING
  | ATTACHING
  | WATCHING
  | CONNECTED
  | STOPPED
  | DESTROYED
deriving DecidableEq, Repr

/-- Error sources, from the `ConnectionError` type. -/
inductive ErrorSource
  | janus
  | plugin
  | webrtc
  | playback
  | stream
deriving DecidableEq, Repr

/-- A surfaced connection error, from the `ConnectionError` type. -/
structure ConnectionError where
  source : ErrorSource
  message : String
deriving DecidableEq, Repr

/-- Video statistics snapshot, from `JanusStreamState.videoStats`. -/
structure VideoStats where
  width : Nat
  height : Nat
  bitrate : String
deriving DecidableEq, Repr

/-- The React `streamState`, from the `JanusStreamState` type. -/
structure JanusStreamState where
  connectionState : ConnectionState
  isConnected : Bool
  error : Option ConnectionError
  videoStats : Option VideoStats
  shouldReconnect : Bool
deriving DecidableEq, Repr

/-- Log entry kinds of the `log` callback. -/
inductive LogType
  | info
  | error
  | warn
deriving DecidableEq, Repr

/-- One entry of the `logs` list. -/
structure LogEntry where
  message : String
  type : LogType
deriving DecidableEq, Repr

/-- A browser `MediaStreamTrack`, identified by its id and kind
("video" or "audio"). -/
structure MediaStreamTrack where
  id : String
  kind : String
deriving DecidableEq, Repr

/-- A browser `MediaStream`: an ordered collection of tracks without
duplicates (`addTrack` is a no-op on a track already present). -/
structure MediaStream where
  tracks : List MediaStreamTrack
deriving DecidableEq, Repr

/-- `stream.getVideoTracks()`: the tracks whose kind is "video". -/
def MediaStream.getVideoTracks (s : MediaStream) : List MediaStreamTrack :=
  s.tracks.filter (fun t => decide (t.kind = "video"))

/-- `stream.removeTrack(t)`: removes the given track from the track set. -/
def MediaStream.removeTrack (s : MediaStream) (t : MediaStreamTrack) : MediaStream :=
  { tracks := s.tracks.filter (fun x => decide (x ≠ t)) }

/-- `stream.addTrack(t)`: appends the track unless already present. -/
def MediaStream.addTrack (s : MediaStream) (t : MediaStreamTrack) : MediaStream :=
  if t ∈ s.tracks then s else { tracks := s.tracks ++ [t] }

/-- The Janus session object held in `janusRef`, at the granularity the
panel observes it: whether `isConnected()` reports true, and whether
`destroy(...)` throws (and with what message) when the panel calls it
during cleanup. -/
structure JanusHandle where
  connected : Bool
  destroyThrows : Bool
  destroyErr : String
deriving DecidableEq, Repr

/-- The streaming plugin handle held in `streamingRef`; `bitrate` is
what `getBitrate(mid)` returns for the sampled mid. -/
structure PluginHandle where
  bitrate : String
deriving DecidableEq, Repr

/-- Requests the panel sends through the plugin handle (`send`) or by
calling `hangup()`. -/
inductive Request
  | watch (id : Nat)
  | stop
  | start
  | hangup
deriving DecidableEq, Repr

/-- The whole observable state of the panel component: the refs, the
video element, the React stream state, the settings field the
controller reads (`streamId`), the log list, and ghost instrumentation
(emitted requests, live interval handles, destroy-call and video-load
counters, stopped tracks). -/
structure PanelModel where
  janusRef : Option JanusHandle
  streamingRef : Option PluginHandle
  bitrateTimerRef : Option Nat
  videoSrcObject : Option MediaStream
  videoPaused : Bool
  videoWidth : Nat
  videoHeight : Nat
  videoLoads : Nat
  streamState : JanusStreamState
  streamId : Nat
  logs : List LogEntry
  sent : List Request
  nextTimerId : Nat
  liveTimers : List Nat
  destroyCalls : Nat
  stoppedTracks : List MediaStreamTrack
deriving DecidableEq, Repr

/-- Append one entry to the log list (the `log` callback). -/
def appendLog (s : PanelModel) (message : String) (type : LogType) : PanelModel :=
  { s with logs := s.logs ++ [{ message := message, type := type }] }

/-- A partial update of `JanusStreamState`, as passed to
`updateStreamState`: absent fields keep their current value; the
`error` and `videoStats` fields can be explicitly set to null. -/
structure StreamUpdate where
  connectionState : Option ConnectionState := none
  isConnected : Option Bool := none
  error : Option (Option ConnectionError) := none
  videoStats : Option (Option VideoStats) := none
  shouldReconnect : Option Bool := none
deriving DecidableEq, Repr

/-- Human label of each connection state (the enum string values). -/
def ConnectionState.label : ConnectionState → String
  | .DISCONNECTED => "Not connected"
  | .INITIALIZING => "Initializing Janus..."
  | .CONNECTING => "Connecting to Janus server..."
  | .ATTACHING => "Attaching to streaming plugin..."
  | .WATCHING => "Starting stream..."
  | .CONNECTED => "Connected"
  | .STOPPED => "Stream stopped"
  | .DESTROYED => "Connection destroyed"

/-- Name of each error source (the union string values). -/
def ErrorSource.label : ErrorSource → String
  | .janus => "janus"
  | .plugin => "plugin"
  | .webrtc => "webrtc"
  | .playback => "playback"
  | .stream => "stream"

/-- Spread-merge of a partial update over the current stream state
(`{...currentState, ...update}`). -/
def mergeUpdate (cur : JanusStreamState) (u : StreamUpdate) : JanusStreamState :=
  { connectionState := u.connectionState.getD cur.connectionState
    isConnected := u.isConnected.getD cur.isConnected
    error := u.error.getD cur.error
    videoStats := u.videoStats.getD cur.videoStats
    shouldReconnect := u.shouldReconnect.getD cur.shouldReconnect }

/-- The log entry `updateStreamState` emits when the update carries a
connection state different from the current one. -/
def connStateLog (cur : JanusStreamState) (u : StreamUpdate) : List LogEntry :=
  match u.connectionState with
  | some cs =>
    if cs ≠ cur.connectionState then
      [{ message := "Connection state: " ++ cs.label, type := LogType.info }]
    else []
  | none => []

/-- The log entry `updateStreamState` emits when the update carries a
truthy error differing from the current one. -/
def errorLog (cur : JanusStreamState) (u : StreamUpdate) : List LogEntry :=
  match u.error with
  | some (some e) =>
    if cur.error = none ∨ (∃ ce, cur.error = some ce ∧
        (e.message ≠ ce.message ∨ e.source ≠ ce.source)) then
      [{ message := "Error (" ++ e.source.label ++ "): " ++ e.message
         type := LogType.error }]
    else []
  | _ => []

/-- The `updateStreamState` callback: spread-merges the partial update
over the current state, logging a connection-state change when the
update carries a different state, and logging a (truthy) error when it
differs from the current one. -/
def updateStreamStateM (s : PanelModel) (u : StreamUpdate) : PanelModel :=
  { s with
    logs := s.logs ++ connStateLog s.streamState u ++ errorLog s.streamState u
    streamState := mergeUpdate s.streamState u }

/-- Clear the bitrate interval and null the ref, the
`clearInterval(...); bitrateTimerRef.current = null` idiom used by
`onremotetrack` (inactive video), `oncleanup` and `cleanupJanus`. -/
def clearBitrateTimer (s : PanelModel) : PanelModel :=
  match s.bitrateTimerRef with
  | some h => { s with liveTimers := s.liveTimers.erase h, bitrateTimerRef := none }
  | none => s

/-- The `onremotetrack` callback (synchronous part).  An inactive video
track transitions to Stopped, clears stats and the bitrate timer, and
logs.  An active video track lazily creates the surface stream,
removes every previously attached video track, and adds the new one;
the deferred `play()` settlement is modelled by the separate
`handlePlaySuccess` / `handlePlayRejection` events.  Non-video tracks
fall through (the inactive branch only logs). -/
def onremotetrack (s : PanelModel) (track : MediaStreamTrack) (isOn : Bool) : PanelModel :=
  if isOn = false then
    let s :=
      if track.kind = "video" then
        let s := updateStreamStateM s
          { connectionState := some ConnectionState.STOPPED
            isConnected := some false
            videoStats := some none }
        clearBitrateTimer s
      else s
    appendLog s ("Track " ++ track.id ++ " is off, skipping processing") LogType.info
  else if track.kind = "video" then
    let s := appendLog s ("Received video track: " ++ track.id) LogType.info
    let s :=
      match s.videoSrcObject with
      | none => { s with videoSrcObject := some { tracks := [] } }
      | some _ => s
    let stream :=
      match s.videoSrcObject with
      | some st => st
      | none => { tracks := [] }
    let stream := stream.getVideoTracks.foldl MediaStream.removeTrack stream
    let stream := stream.addTrack track
    { s with videoSrcObject := some stream }
  else s

/-! The remaining panel operations. -/

/-- List infix test: does `needle` occur contiguously inside the list?
Used to model the JS `String.prototype.includes`. -/
def hasInfixList (needle : List Char) : List Char → Bool
  | [] => decide (needle = [])
  | c :: t => needle.isPrefixOf (c :: t) || hasInfixList needle t

/-- JS `hay.includes(needle)` on strings. -/
def strIncludes (hay needle : String) : Bool :=
  hasInfixList needle.data hay.data

/-- The benign playback-rejection phrase tested by `onremotetrack`'s
play catch handler. -/
def supersededPhrase : String := "interrupted by a new load request"

/-- JS truthiness of the optional `error.message` string: present and
non-empty. -/
def msgTruthy (message : Option String) : Bool :=
  match message with
  | some m => decide (m ≠ "")
  | none => false

/-- The catch-handler condition
`error.message && error.message.includes('interrupted by a new load request')`. -/
def msgTruthyContains (message : Option String) : Bool :=
  match message with
  | some m => decide (m ≠ "") && strIncludes m supersededPhrase
  | none => false

/-- JS `error.message || String(error)`: the message when truthy, else
the stringified error. -/
def jsOrString (message : Option String) (errStr : String) : String :=
  match message with
  | some m => if m = "" then errStr else m
  | none => errStr

/-- The `.catch` handler of the deferred `play()` call inside
`onremotetrack`: a rejection whose message includes the superseded-load
phrase is only logged; any other rejection surfaces a playback error
and forces Disconnected. -/
def handlePlayRejection (message : Option String) (errStr : String)
    (s : PanelModel) : PanelModel :=
  if msgTruthyContains message then
    appendLog s "Play interrupted, will retry automatically" LogType.warn
  else
    updateStreamStateM s
      { connectionState := some ConnectionState.DISCONNECTED
        error := some (some { source := ErrorSource.playback
                              message := jsOrString message errStr }) }

/-- The `updateBitrate` sampler body: when the video element reports a
non-zero width and the plugin handle is live, publish a VideoStats
snapshot from the element dimensions and `getBitrate(mid)`. -/
def updateBitrate (s : PanelModel) : PanelModel :=
  if s.videoWidth ≠ 0 then
    match s.streamingRef with
    | some p =>
      updateStreamStateM s
        { videoStats := some (some { width := s.videoWidth
                                     height := s.videoHeight
                                     bitrate := p.bitrate }) }
    | none => s
  else s

/-- The `.then` handler of the deferred `play()` call: transitions to
Connected, clears the error, and — only when no bitrate timer handle is
stored (check-before-create) — runs one immediate sample and starts the
1-second interval, storing the fresh handle. -/
def handlePlaySuccess (s : PanelModel) : PanelModel :=
  let s := updateStreamStateM s
    { connectionState := some ConnectionState.CONNECTED
      isConnected := some true
      error := some none }
  match s.bitrateTimerRef with
  | none =>
    let s := updateBitrate s
    let id := s.nextTimerId
    { s with nextTimerId := id + 1
             liveTimers := s.liveTimers ++ [id]
             bitrateTimerRef := some id }
  | some _ => s

/-- The `oncleanup` callback: clears the bitrate timer, detaches the
surface stream, transitions to Stopped and clears the connected flag
and stats. -/
def oncleanup (s : PanelModel) : PanelModel :=
  let s := clearBitrateTimer s
  let s := { s with videoSrcObject := none }
  updateStreamStateM s
    { connectionState := some ConnectionState.STOPPED
      isConnected := some false
      videoStats := some none }

/-- The `startStream` callback: without a live plugin handle it
surfaces a plugin error together with a forced Disconnected state and
returns; with one it transitions to Watching and sends a watch request
carrying the configured stream id. -/
def startStream (s : PanelModel) : PanelModel :=
  match s.streamingRef with
  | none =>
    updateStreamStateM s
      { connectionState := some ConnectionState.DISCONNECTED
        error := some (some { source := ErrorSource.plugin
                              message := "Streaming plugin not initialized" }) }
  | some _ =>
    let s := updateStreamStateM s
      { connectionState := some ConnectionState.WATCHING }
    { s with sent := s.sent ++ [Request.watch s.streamId] }

/-- The `stopStream` callback: an early return when no plugin handle
exists; otherwise it logs, pauses the video element, detaches its
stream (stopping every track of the old stream), sends a stop request
and hangs up. -/
def stopStream (s : PanelModel) : PanelModel :=
  match s.streamingRef with
  | none => s
  | some _ =>
    let s := appendLog s "Stopping stream" LogType.info
    let oldSrc := s.videoSrcObject
    let s := { s with videoPaused := true, videoSrcObject := none }
    let s :=
      match oldSrc with
      | some stream => { s with stoppedTracks := s.stoppedTracks ++ stream.tracks }
      | none => s
    let s := { s with sent := s.sent ++ [Request.stop] }
    { s with sent := s.sent ++ [Request.hangup] }

/-- The `cleanupJanus` callback: logs, clears the bitrate timer, and if
a session handle exists logs the forced-disconnection notice when the
session reports connected, calls `destroy` (counted in `destroyCalls`)
catching and logging any exception, and nulls the session ref; then
nulls the plugin-handle ref, detaches the surface stream and forces a
video reload, and transitions to Disconnected clearing the connected
flag and stats. -/
def cleanupJanus (s : PanelModel) : PanelModel :=
  let s := appendLog s "Cleaning up Janus resources" LogType.info
  let s := clearBitrateTimer s
  let s :=
    match s.janusRef with
    | some j =>
      let s :=
        if j.connected then
          appendLog s "Forcing Janus disconnection before cleanup" LogType.info
        else s
      let s := { s with destroyCalls := s.destroyCalls + 1 }
      let s :=
        if j.destroyThrows then
          appendLog s ("Error during Janus cleanup: " ++ j.destroyErr) LogType.warn
        else s
      { s with janusRef := none }
    | none => s
  let s := { s with streamingRef := none }
  let s := { s with videoSrcObject := none, videoLoads := s.videoLoads + 1 }
  updateStreamStateM s
    { connectionState := some ConnectionState.DISCONNECTED
      isConnected := some false
      videoStats := some none }

/-- The events that can reach the panel after attachment: gateway
track/cleanup callbacks, settlement of a deferred play attempt, and the
panel-driven operations. -/
inductive PanelEvent
  | remoteTrack (t : MediaStreamTrack) (isOn : Bool)
  | playSuccess
  | playRejected (message : Option String) (errStr : String)
  | cleanupCb
  | panelCleanup
  | doStop
  | doStart
deriving DecidableEq, Repr

/-- Dispatch one event to the operation modelling it. -/
def stepEvent (s : PanelModel) (e : PanelEvent) : PanelModel :=
  match e with
  | .remoteTrack t isOn => onremotetrack s t isOn
  | .playSuccess => handlePlaySuccess s
  | .playRejected m err => handlePlayRejection m err s
  | .cleanupCb => oncleanup s
  | .panelCleanup => cleanupJanus s
  | .doStop => stopStream s
  | .doStart => startStream s

/-- The panel state right after mount: no refs, no timers, default
stream state, settings at their defaults. -/
def initPanel : PanelModel :=
  { janusRef := none
    streamingRef := none
    bitrateTimerRef := none
    videoSrcObject := none
    videoPaused := false
    videoWidth := 0
    videoHeight := 0
    videoLoads := 0
    streamState :=
      { connectionState := ConnectionState.DISCONNECTED
        isConnected := false
        error := none
        videoStats := none
        shouldReconnect := false }
    streamId := 1
    logs := []
    sent := []
    nextTimerId := 0
    liveTimers := []
    destroyCalls := 0
    stoppedTracks := [] }

/-! Settings store initial state (the `useState` initializer of
`JanusStreamPanel`). -/

/-- The user-configurable stream settings (`PanelState.stream`). -/
structure StreamSettings where
  label : String
  visible : Bool
  serverUrl : String
  streamId : Nat
  debug : Bool
deriving DecidableEq, Repr

/-- A host-provided partial initial state
(`context.initialState as Partial<PanelState>`): each field may be
absent. -/
structure PartialStreamSettings where
  label : Option String := none
  visible : Option Bool := none
  serverUrl : Option String := none
  streamId : Option Nat := none
  debug : Option Bool := none
deriving DecidableEq, Repr

/-- The settings-store initializer: each field falls back to its coded
default with the nullish-coalescing operator. -/
def initialStreamSettings (p : PartialStreamSettings) : StreamSettings :=
  { label := p.label.getD "Janus Stream"
    visible := p.visible.getD true
    serverUrl := p.serverUrl.getD "http://localhost:8088/janus"
    streamId := p.streamId.getD 1
    debug := p.debug.getD false }

/-! Scheduled restart continuations (`handleRestartStream` and the
reconnect effect). -/

/-- One delayed continuation scheduled with `setTimeout` during a
restart sequence: its delay and whether the scheduling code retains the
returned handle so that a teardown path can `clearTimeout` it before it
fires. -/
structure ScheduledTimeout where
  delayMs : Nat
  retained : Bool
deriving DecidableEq, Repr

/-- The two continuations of `handleRestartStream` (manual restart):
`setTimeout(..., 500)` running `cleanupJanus` and the nested
`setTimeout(..., 1000)` running `initJanusConnection`.  Both return
values are discarded, and no teardown path clears them. -/
def handleRestartStreamTimeouts : List ScheduledTimeout :=
  [{ delayMs := 500, retained := false }, { delayMs := 1000, retained := false }]

/-- The two continuations of the reconnect-on-settings-change effect:
`window.setTimeout(..., 500)` stored in `timeout` and the nested
`window.setTimeout(..., 1000)` stored in `reconnectTimeout`; the
effect's cleanup function clears both handles. -/
def reconnectEffectTimeouts : List ScheduledTimeout :=
  [{ delayMs := 500, retained := true }, { delayMs := 1000, retained := true }]

/-- A scheduled continuation is cancelable on teardown exactly when its
handle was retained by the scheduling code. -/
def cancelableOnTeardown (t : ScheduledTimeout) : Bool :=
  t.retained

/-- The claim-level benign-rejection test: the rejection message exists
and contains the superseded-load phrase. -/
def rejectionMessageContains (message : Option String) : Bool :=
  match message with
  | some m => strIncludes m supersededPhrase
  | none => false

/-- The observables named by the cleanup-idempotence property: session
handle, plugin handle, bitrate timer handle, video-surface source,
connection state, connected flag, stats. -/
def cleanupObs (s : PanelModel) :
    Option JanusHandle × Option PluginHandle × Option Nat × Option MediaStream ×
      ConnectionState × Bool × Option VideoStats :=
  (s.janusRef, s.streamingRef, s.bitrateTimerRef, s.videoSrcObject,
   s.streamState.connectionState, s.streamState.isConnected,
   s.streamState.videoStats)

/-- The observable end state compared by the stopStream-idempotence
property: every component of the panel state except the log list and
the emitted-request list. -/
def stopObs (s : PanelModel) :
    Option JanusHandle × Option PluginHandle × Option Nat × Option MediaStream ×
      Bool × JanusStreamState × List Nat × List MediaStreamTrack :=
  (s.janusRef, s.streamingRef, s.bitrateTimerRef, s.videoSrcObject,
   s.videoPaused, s.streamState, s.liveTimers, s.stoppedTracks)
/-! Helper lemmas about track removal. -/

theorem foldl_removeTrack_tracks (rl : List MediaStreamTrack) :
    ∀ s : MediaStream,
      (rl.foldl MediaStream.removeTrack s).tracks
        = s.tracks.filter (fun x => decide (¬ x ∈ rl)) := by
  induction rl with
  | nil =>
    intro s
    simp [List.foldl]
  | cons r rs ih =>
    intro s
    have hpt : ∀ x : MediaStreamTrack,
        (decide (¬ x ∈ rs) && decide (x ≠ r)) = decide (¬ x ∈ r :: rs) := by
      intro x
      by_cases h1 : x = r <;> by_cases h2 : x ∈ rs <;> simp [h1, h2]
    calc ((r :: rs).foldl MediaStream.removeTrack s).tracks
        = (rs.foldl MediaStream.removeTrack (s.removeTrack r)).tracks := by
          simp [List.foldl]
      _ = (s.removeTrack r).tracks.filter (fun x => decide (¬ x ∈ rs)) := ih _
      _ = (s.tracks.filter (fun x => decide (x ≠ r))).filter
            (fun x => decide (¬ x ∈ rs)) := by
          simp [MediaStream.removeTrack]
      _ = s.tracks.filter (fun x => decide (¬ x ∈ r :: rs)) := by
          rw [List.filter_filter]
          simp only [hpt]

theorem removeAllVideo_no_video (st : MediaStream) :
    (st.getVideoTracks.foldl MediaStream.removeTrack st).getVideoTracks = [] := by
  rw [List.eq_nil_iff_forall_not_mem]
  intro x hx
  rw [MediaStream.getVideoTracks, List.mem_filter] at hx
  obtain ⟨hx1, hx2⟩ := hx
  rw [foldl_removeTrack_tracks, List.mem_filter] at hx1
  obtain ⟨hmem, hnot⟩ := hx1
  have : x ∈ st.getVideoTracks := by
    rw [MediaStream.getVideoTracks, List.mem_filter]
    exact ⟨hmem, hx2⟩
  simp at hnot
  exact hnot this

theorem replaceVideoTrack_spec (st : MediaStream) (t : MediaStreamTrack)
    (ht : t.kind = "video") :
    ((st.getVideoTracks.foldl MediaStream.removeTrack st).addTrack t).getVideoTracks
      = [t] := by
  set st1 := st.getVideoTracks.foldl MediaStream.removeTrack st with hst1
  have hno : st1.getVideoTracks = [] := removeAllVideo_no_video st
  have hnotmem : ¬ t ∈ st1.tracks := by
    intro hmem
    have : t ∈ st1.getVideoTracks := by
      rw [MediaStream.getVideoTracks, List.mem_filter]
      exact ⟨hmem, by simp [ht]⟩
    rw [hno] at this
    exact absurd this (List.not_mem_nil t)
  rw [MediaStream.addTrack, if_neg hnotmem]
  show (st1.tracks ++ [t]).filter (fun x => decide (x.kind = "video")) = [t]
  rw [List.filter_append]
  have h1 : st1.tracks.filter (fun x => decide (x.kind = "video")) = [] := hno
  rw [h1]
  simp [ht]

/-! Helper lemmas about the play-rejection condition and the timer
bookkeeping. -/

theorem strIncludes_empty_hay :
    strIncludes "" supersededPhrase = false := by
  decide

theorem msgTruthyContains_eq (message : Option String) :
    msgTruthyContains message = rejectionMessageContains message := by
  cases message with
  | none => rfl
  | some m =>
    by_cases hm : m = ""
    · subst hm
      rw [show rejectionMessageContains (some "") = strIncludes "" supersededPhrase from rfl,
        strIncludes_empty_hay]
      decide
    · simp [msgTruthyContains, rejectionMessageContains, hm]

theorem updateBitrate_liveTimers (s : PanelModel) :
    (updateBitrate s).liveTimers = s.liveTimers := by
  unfold updateBitrate
  split
  · split <;> rfl
  · rfl

theorem updateBitrate_bitrateTimerRef (s : PanelModel) :
    (updateBitrate s).bitrateTimerRef = s.bitrateTimerRef := by
  unfold updateBitrate
  split
  · split <;> rfl
  · rfl

theorem updateBitrate_nextTimerId (s : PanelModel) :
    (updateBitrate s).nextTimerId = s.nextTimerId := by
  unfold updateBitrate
  split
  · split <;> rfl
  · rfl

theorem clearBitrateTimer_inv (s : PanelModel)
    (h : s.liveTimers = s.bitrateTimerRef.toList) :
    (clearBitrateTimer s).liveTimers = (clearBitrateTimer s).bitrateTimerRef.toList := by
  unfold clearBitrateTimer
  cases hbt : s.bitrateTimerRef with
  | none => simpa [hbt] using h
  | some h0 =>
    rw [hbt] at h
    simp [h]

theorem cleanupJanus_timers (s : PanelModel)
    (h : s.liveTimers = s.bitrateTimerRef.toList) :
    (cleanupJanus s).liveTimers = [] ∧ (cleanupJanus s).bitrateTimerRef = none := by
  unfold cleanupJanus clearBitrateTimer
  cases hbt : s.bitrateTimerRef <;> rw [hbt] at h <;>
    cases hj : s.janusRef
  case none.none => simp [appendLog, updateStreamStateM, h, hbt, hj]
  case none.some j =>
    cases hc : j.connected <;> cases hd : j.destroyThrows <;>
      simp [appendLog, updateStreamStateM, h, hbt, hj, hc, hd]
  case some.none h0 => simp [appendLog, updateStreamStateM, h, hbt, hj]
  case some.some h0 j =>
    cases hc : j.connected <;> cases hd : j.destroyThrows <;>
      simp [appendLog, updateStreamStateM, h, hbt, hj, hc, hd]

theorem cleanupObs_cleanupJanus (s : PanelModel) :
    cleanupObs (cleanupJanus s) =
      (none, none, none, none, ConnectionState.DISCONNECTED, false, none) := by
  unfold cleanupObs cleanupJanus clearBitrateTimer
  cases hbt : s.bitrateTimerRef <;> cases hj : s.janusRef
  case none.none => simp [appendLog, updateStreamStateM, mergeUpdate, hbt, hj]
  case none.some j =>
    cases hc : j.connected <;> cases hd : j.destroyThrows <;>
      simp [appendLog, updateStreamStateM, mergeUpdate, hbt, hj, hc, hd]
  case some.none h0 => simp [appendLog, updateStreamStateM, mergeUpdate, hbt, hj]
  case some.some h0 j =>
    cases hc : j.connected <;> cases hd : j.destroyThrows <;>
      simp [appendLog, updateStreamStateM, mergeUpdate, hbt, hj, hc, hd]

theorem stepEvent_timerInv (s : PanelModel) (e : PanelEvent)
    (h : s.liveTimers = s.bitrateTimerRef.toList) :
    (stepEvent s e).liveTimers = (stepEvent s e).bitrateTimerRef.toList := by
  cases e with
  | remoteTrack t isOn =>
    cases isOn with
    | false =>
      simp only [stepEvent, onremotetrack]
      by_cases hk : t.kind = "video"
      · simpa [hk, appendLog] using
          clearBitrateTimer_inv (updateStreamStateM s
            { connectionState := some ConnectionState.STOPPED
              isConnected := some false
              videoStats := some none }) (by simpa [updateStreamStateM] using h)
      · simpa [hk, appendLog] using h
    | true =>
      simp only [stepEvent, onremotetrack]
      by_cases hk : t.kind = "video"
      · cases hv : s.videoSrcObject <;> simpa [hk, hv, appendLog] using h
      · simpa [hk] using h
  | playSuccess =>
    simp only [stepEvent, handlePlaySuccess]
    cases hbt : s.bitrateTimerRef with
    | none =>
      rw [hbt] at h
      simp [updateStreamStateM, hbt, updateBitrate_liveTimers,
        updateBitrate_bitrateTimerRef, h]
    | some h0 =>
      rw [hbt] at h
      simpa [updateStreamStateM, hbt] using h
  | playRejected m err =>
    simp only [stepEvent, handlePlayRejection]
    split
    · simpa [appendLog] using h
    · simpa [updateStreamStateM] using h
  | cleanupCb =>
    simpa [stepEvent, oncleanup, updateStreamStateM] using
      clearBitrateTimer_inv s h
  | panelCleanup =>
    obtain ⟨h1, h2⟩ := cleanupJanus_timers s h
    simp only [stepEvent]
    rw [h1, h2]
    rfl
  | doStop =>
    simp only [stepEvent, stopStream]
    cases hp : s.streamingRef with
    | none => simpa using h
    | some p =>
      cases hv : s.videoSrcObject <;> simpa [appendLog, hv] using h
  | doStart =>
    simp only [stepEvent, startStream]
    cases hp : s.streamingRef with
    | none => simpa [updateStreamStateM] using h
    | some p => simpa [updateStreamStateM] using h

/-! Claim theorems. -/

/-- C1: after any `onremotetrack` event carrying an active video track,
the media stream attached to the video surface exists and contains
exactly one video track, namely the track just received: every
previously attached video track is removed before the new one is
added.  Since the state is universally quantified, this holds after
each event of every sequence of active-video-track events. -/
theorem C1_active_video_track_replaces (s : PanelModel) (t : MediaStreamTrack)
    (ht : t.kind = "video") :
    ∃ st : MediaStream,
      (onremotetrack s t true).videoSrcObject = some st ∧
      st.getVideoTracks = [t] := by
  unfold onremotetrack
  cases hsrc : s.videoSrcObject with
  | none =>
    refine ⟨_, ?_, replaceVideoTrack_spec { tracks := [] } t ht⟩
    simp [ht, hsrc, appendLog]
  | some st0 =>
    refine ⟨_, ?_, replaceVideoTrack_spec st0 t ht⟩
    simp [ht, hsrc, appendLog]

/-- C1 witness: the property evaluated on two consecutive concrete
video tracks arriving from the initial panel state. -/
theorem C1_active_video_track_replaces_witness :
    (⟨"t2", "video"⟩ : MediaStreamTrack).kind = "video" ∧
    ∃ st : MediaStream,
      (onremotetrack (onremotetrack initPanel ⟨"t1", "video"⟩ true)
          ⟨"t2", "video"⟩ true).videoSrcObject = some st ∧
      st.getVideoTracks = [⟨"t2", "video"⟩] :=
  ⟨rfl, C1_active_video_track_replaces
    (onremotetrack initPanel ⟨"t1", "video"⟩ true) ⟨"t2", "video"⟩ rfl⟩

/-- C2: a playback rejection whose message contains the superseded-load
phrase leaves the surfaced error and the connection state untouched;
any other rejection surfaces a playback-sourced error carrying the
rejection message (or the stringified error when the message is
absent or empty) and forces the connection state to Disconnected. -/
theorem C2_play_rejection_cases (s : PanelModel) (message : Option String)
    (errStr : String) :
    (rejectionMessageContains message = true →
      (handlePlayRejection message errStr s).streamState.error
          = s.streamState.error ∧
      (handlePlayRejection message errStr s).streamState.connectionState
          = s.streamState.connectionState) ∧
    (rejectionMessageContains message = false →
      (handlePlayRejection message errStr s).streamState.error
          = some { source := ErrorSource.playback
                   message := jsOrString message errStr } ∧
      (handlePlayRejection message errStr s).streamState.connectionState
          = ConnectionState.DISCONNECTED) := by
  have he := msgTruthyContains_eq message
  constructor
  · intro hc
    unfold handlePlayRejection
    rw [he, hc]
    simp [appendLog]
  · intro hc
    unfold handlePlayRejection
    rw [he, hc]
    simp [updateStreamStateM, mergeUpdate]

/-- C2 witness: a concrete benign rejection and a concrete fatal one,
both evaluated from the initial panel state. -/
theorem C2_play_rejection_cases_witness :
    ((handlePlayRejection
        (some "The play() request was interrupted by a new load request.")
        "AbortError" initPanel).streamState.error = initPanel.streamState.error ∧
      (handlePlayRejection
        (some "The play() request was interrupted by a new load request.")
        "AbortError" initPanel).streamState.connectionState
          = initPanel.streamState.connectionState) ∧
    ((handlePlayRejection (some "NotAllowedError: denied") "x"
        initPanel).streamState.error
          = some { source := ErrorSource.playback
                   message := "NotAllowedError: denied" } ∧
      (handlePlayRejection (some "NotAllowedError: denied") "x"
        initPanel).streamState.connectionState = ConnectionState.DISCONNECTED) :=
  ⟨(C2_play_rejection_cases initPanel
      (some "The play() request was interrupted by a new load request.")
      "AbortError").1 (by decide),
   (C2_play_rejection_cases initPanel
      (some "NotAllowedError: denied") "x").2 (by decide)⟩

/-- C3: cleanup is idempotent on its observable end state (session
handle, plugin handle, bitrate timer handle, video-surface source,
connection state, connected flag, stats), and when no session exists
it is safe: no destroy call is attempted. -/
theorem C3_cleanup_idempotent (s : PanelModel) :
    cleanupObs (cleanupJanus (cleanupJanus s)) = cleanupObs (cleanupJanus s) ∧
    (s.janusRef = none → (cleanupJanus s).destroyCalls = s.destroyCalls) := by
  constructor
  · rw [cleanupObs_cleanupJanus, cleanupObs_cleanupJanus]
  · intro hj
    unfold cleanupJanus clearBitrateTimer
    cases hbt : s.bitrateTimerRef <;>
      simp [appendLog, updateStreamStateM, hbt, hj]

/-- C3 witness: cleanup applied twice from the initial panel state,
which has no session. -/
theorem C3_cleanup_idempotent_witness :
    cleanupObs (cleanupJanus (cleanupJanus initPanel))
        = cleanupObs (cleanupJanus initPanel) ∧
    (cleanupJanus initPanel).destroyCalls = initPanel.destroyCalls :=
  ⟨(C3_cleanup_idempotent initPanel).1,
   (C3_cleanup_idempotent initPanel).2 rfl⟩

/-- C4: starting from the mounted panel, after any sequence of panel
events the set of live interval handles is exactly the stored bitrate
timer handle, so at most one live bitrate-sampling timer exists at any
instant; the sampler only starts when no handle is stored, and every
path that stops sampling clears the stored handle. -/
theorem C4_single_bitrate_timer (evs : List PanelEvent) :
    (evs.foldl stepEvent initPanel).liveTimers
        = (evs.foldl stepEvent initPanel).bitrateTimerRef.toList ∧
    (evs.foldl stepEvent initPanel).liveTimers.length ≤ 1 := by
  have main : ∀ (l : List PanelEvent) (s : PanelModel),
      s.liveTimers = s.bitrateTimerRef.toList →
      (l.foldl stepEvent s).liveTimers
        = (l.foldl stepEvent s).bitrateTimerRef.toList := by
    intro l
    induction l with
    | nil => intro s hs; exact hs
    | cons e rest ih =>
      intro s hs
      exact ih (stepEvent s e) (stepEvent_timerInv s e hs)
  have h0 := main evs initPanel rfl
  refine ⟨h0, ?_⟩
  rw [h0]
  cases (evs.foldl stepEvent initPanel).bitrateTimerRef <;> simp

/-- C5: evaluation of the restart sequences at the failing input.  The
reconnect effect retains both of its scheduled timeout handles (its
cleanup clears them), but the manual-restart handler discards both of
its handles, so neither of its delayed continuations is cancelable
when the panel is torn down before they fire: the claimed property
fails for the manual restart path. -/
theorem C5_manual_restart_not_cancelable :
    reconnectEffectTimeouts.all cancelableOnTeardown = true ∧
    handleRestartStreamTimeouts.all cancelableOnTeardown = false := by
  decide

/-- C6 counterexample: with no plugin handle and the connection state
Connected, `startStream` changes the connection state (to
Disconnected), so it is not "otherwise a no-op" as claimed. -/
theorem C6_counterexample_state_change :
    ({ initPanel with
        streamState.connectionState := ConnectionState.CONNECTED } :
      PanelModel).streamingRef = none ∧
    (startStream { initPanel with
        streamState.connectionState := ConnectionState.CONNECTED
      }).streamState.connectionState
      ≠ ({ initPanel with
            streamState.connectionState := ConnectionState.CONNECTED } :
          PanelModel).streamState.connectionState := by
  decide

/-- C6 (amended): without a live plugin handle, `startStream` surfaces
a plugin-sourced error and forces the connection state to
Disconnected, sending nothing and leaving the refs, the surface stream
and the connected flag unchanged; with a live plugin handle it
transitions to Watching and sends a watch request carrying the
configured stream id. -/
theorem C6_startStream_spec (s : PanelModel) :
    (s.streamingRef = none →
      (startStream s).streamState.error
          = some { source := ErrorSource.plugin
                   message := "Streaming plugin not initialized" } ∧
      (startStream s).streamState.connectionState
          = ConnectionState.DISCONNECTED ∧
      (startStream s).sent = s.sent ∧
      (startStream s).janusRef = s.janusRef ∧
      (startStream s).streamingRef = none ∧
      (startStream s).bitrateTimerRef = s.bitrateTimerRef ∧
      (startStream s).videoSrcObject = s.videoSrcObject ∧
      (startStream s).streamState.isConnected = s.streamState.isConnected) ∧
    (s.streamingRef ≠ none →
      (startStream s).streamState.connectionState = ConnectionState.WATCHING ∧
      (startStream s).sent = s.sent ++ [Request.watch s.streamId]) := by
  constructor
  · intro hp
    unfold startStream
    simp [hp, updateStreamStateM, mergeUpdate]
  · intro hp
    unfold startStream
    cases hps : s.streamingRef with
    | none => exact absurd hps hp
    | some p => simp [updateStreamStateM, mergeUpdate]

/-- C6 witness: both branches evaluated at concrete states. -/
theorem C6_startStream_spec_witness :
    ((startStream initPanel).streamState.error
        = some { source := ErrorSource.plugin
                 message := "Streaming plugin not initialized" } ∧
      (startStream initPanel).sent = initPanel.sent) ∧
    ((startStream { initPanel with
        streamingRef := some { bitrate := "0 kbps" } }).streamState.connectionState
        = ConnectionState.WATCHING ∧
      (startStream { initPanel with
        streamingRef := some { bitrate := "0 kbps" } }).sent
        = ({ initPanel with
              streamingRef := some { bitrate := "0 kbps" } } : PanelModel).sent
          ++ [Request.watch ({ initPanel with
              streamingRef := some { bitrate := "0 kbps" } } : PanelModel).streamId]) :=
  ⟨⟨((C6_startStream_spec initPanel).1 rfl).1,
    ((C6_startStream_spec initPanel).1 rfl).2.2.1⟩,
   (C6_startStream_spec { initPanel with
      streamingRef := some { bitrate := "0 kbps" } }).2 (by decide)⟩

/-- C7 counterexample: on an empty host-provided partial state the
label defaults to "Janus Stream", not the claimed "Stream". -/
theorem C7_counterexample_label_default :
    (initialStreamSettings {}).label = "Janus Stream" ∧
    "Janus Stream" ≠ "Stream" := by
  decide

/-- C7 (amended): each missing field of the host-provided partial state
defaults to label = "Janus Stream", visible = true, serverUrl =
"http://localhost:8088/janus", streamId = 1, debug = false, and every
provided field is kept as provided. -/
theorem C7_settings_defaults (p : PartialStreamSettings) :
    (p.label = none → (initialStreamSettings p).label = "Janus Stream") ∧
    (∀ v, p.label = some v → (initialStreamSettings p).label = v) ∧
    (p.visible = none → (initialStreamSettings p).visible = true) ∧
    (∀ v, p.visible = some v → (initialStreamSettings p).visible = v) ∧
    (p.serverUrl = none →
      (initialStreamSettings p).serverUrl = "http://localhost:8088/janus") ∧
    (∀ v, p.serverUrl = some v → (initialStreamSettings p).serverUrl = v) ∧
    (p.streamId = none → (initialStreamSettings p).streamId = 1) ∧
    (∀ v, p.streamId = some v → (initialStreamSettings p).streamId = v) ∧
    (p.debug = none → (initialStreamSettings p).debug = false) ∧
    (∀ v, p.debug = some v → (initialStreamSettings p).debug = v) := by
  refine ⟨fun hp => ?_, fun v hp => ?_, fun hp => ?_, fun v hp => ?_,
    fun hp => ?_, fun v hp => ?_, fun hp => ?_, fun v hp => ?_,
    fun hp => ?_, fun v hp => ?_⟩ <;>
    simp [initialStreamSettings, hp]

/-- C7 witness: the defaults on an empty partial state and the
preservation of a fully provided partial state. -/
theorem C7_settings_defaults_witness :
    ((initialStreamSettings {}).label = "Janus Stream" ∧
      (initialStreamSettings {}).visible = true ∧
      (initialStreamSettings {}).serverUrl = "http://localhost:8088/janus" ∧
      (initialStreamSettings {}).streamId = 1 ∧
      (initialStreamSettings {}).debug = false) ∧
    ((initialStreamSettings
        { label := some "Cam", visible := some false,
          serverUrl := some "http://10.0.0.2:8088/janus",
          streamId := some 7, debug := some true }).label = "Cam" ∧
      (initialStreamSettings
        { label := some "Cam", visible := some false,
          serverUrl := some "http://10.0.0.2:8088/janus",
          streamId := some 7, debug := some true }).visible = false ∧
      (initialStreamSettings
        { label := some "Cam", visible := some false,
          serverUrl := some "http://10.0.0.2:8088/janus",
          streamId := some 7, debug := some true }).serverUrl
          = "http://10.0.0.2:8088/janus" ∧
      (initialStreamSettings
        { label := some "Cam", visible := some false,
          serverUrl := some "http://10.0.0.2:8088/janus",
          streamId := some 7, debug := some true }).streamId = 7 ∧
      (initialStreamSettings
        { label := some "Cam", visible := some false,
          serverUrl := some "http://10.0.0.2:8088/janus",
          streamId := some 7, debug := some true }).debug = true) :=
  ⟨⟨(C7_settings_defaults {}).1 rfl,
    (C7_settings_defaults {}).2.2.1 rfl,
    (C7_settings_defaults {}).2.2.2.2.1 rfl,
    (C7_settings_defaults {}).2.2.2.2.2.2.1 rfl,
    (C7_settings_defaults {}).2.2.2.2.2.2.2.2.1 rfl⟩,
   ⟨(C7_settings_defaults _).2.1 "Cam" rfl,
    (C7_settings_defaults _).2.2.2.1 false rfl,
    (C7_settings_defaults _).2.2.2.2.2.1 "http://10.0.0.2:8088/janus" rfl,
    (C7_settings_defaults _).2.2.2.2.2.2.2.1 7 rfl,
    (C7_settings_defaults _).2.2.2.2.2.2.2.2.2 true rfl⟩⟩

/-- C8: whenever a session handle exists, cleanup completes all its
observable side effects — both references cleared, the surface stream
detached, the state forced to Disconnected with the connected flag and
stats cleared — and when session destruction throws, the exception is
caught and logged as a warning (the model function is total: nothing
is rethrown). -/
theorem C8_cleanup_always_completes (s : PanelModel) (j : JanusHandle)
    (hj : s.janusRef = some j) :
    (cleanupJanus s).janusRef = none ∧
    (cleanupJanus s).streamingRef = none ∧
    (cleanupJanus s).videoSrcObject = none ∧
    (cleanupJanus s).streamState.connectionState = ConnectionState.DISCONNECTED ∧
    (cleanupJanus s).streamState.isConnected = false ∧
    (cleanupJanus s).streamState.videoStats = none ∧
    (j.destroyThrows = true →
      ({ message := "Error during Janus cleanup: " ++ j.destroyErr
         type := LogType.warn } : LogEntry) ∈ (cleanupJanus s).logs) := by
  unfold cleanupJanus clearBitrateTimer
  cases hbt : s.bitrateTimerRef <;>
    cases hc : j.connected <;> cases hd : j.destroyThrows <;>
      simp [appendLog, updateStreamStateM, mergeUpdate, hbt, hj, hc, hd]

/-- C8 witness: cleanup of a concrete state whose session destruction
throws. -/
theorem C8_cleanup_always_completes_witness :
    (cleanupJanus { initPanel with
        janusRef := some { connected := false, destroyThrows := true
                           destroyErr := "boom" } }).janusRef = none ∧
    (cleanupJanus { initPanel with
        janusRef := some { connected := false, destroyThrows := true
                           destroyErr := "boom" } }).streamingRef = none ∧
    (cleanupJanus { initPanel with
        janusRef := some { connected := false, destroyThrows := true
                           destroyErr := "boom" } }).streamState.connectionState
        = ConnectionState.DISCONNECTED ∧
    ({ message := "Error during Janus cleanup: " ++ "boom"
       type := LogType.warn } : LogEntry) ∈
      (cleanupJanus { initPanel with
        janusRef := some { connected := false, destroyThrows := true
                           destroyErr := "boom" } }).logs :=
  ⟨(C8_cleanup_always_completes _ _ rfl).1,
   (C8_cleanup_always_completes _ _ rfl).2.1,
   (C8_cleanup_always_completes _ _ rfl).2.2.2.1,
   (C8_cleanup_always_completes { initPanel with
      janusRef := some { connected := false, destroyThrows := true
                         destroyErr := "boom" } }
      { connected := false, destroyThrows := true, destroyErr := "boom" }
      rfl).2.2.2.2.2.2 rfl⟩

/-- C9: stopStream is a no-op (the panel state is fully unchanged) when
no plugin handle exists, and a second consecutive call yields the same
observable end state as one call. -/
theorem C9_stopStream_idempotent (s : PanelModel) :
    stopObs (stopStream (stopStream s)) = stopObs (stopStream s) ∧
    (s.streamingRef = none → stopStream s = s) := by
  constructor
  · cases hp : s.streamingRef with
    | none => simp [stopStream, hp]
    | some p =>
      cases hv : s.videoSrcObject <;>
        simp [stopStream, stopObs, appendLog, hp, hv]
  · intro hp
    simp [stopStream, hp]

/-- C9 witness: the double call from a concrete state holding a plugin
handle and an attached stream, and the no-op on the initial state. -/
theorem C9_stopStream_idempotent_witness :
    stopObs (stopStream (stopStream { initPanel with
        streamingRef := some { bitrate := "0 kbps" }
        videoSrcObject := some { tracks := [⟨"t1", "video"⟩] } }))
      = stopObs (stopStream { initPanel with
        streamingRef := some { bitrate := "0 kbps" }
        videoSrcObject := some { tracks := [⟨"t1", "video"⟩] } }) ∧
    stopStream initPanel = initPanel :=
  ⟨(C9_stopStream_idempotent { initPanel with
      streamingRef := some { bitrate := "0 kbps" }
      videoSrcObject := some { tracks := [⟨"t1", "video"⟩] } }).1,
   (C9_stopStream_idempotent initPanel).2 rfl⟩

/-- C10: an `onremotetrack` event whose track kind is not video leaves
the stream state (connection state, connected flag, stats, error,
reconnect flag), the bitrate timer handle, the set of live timers and
the media stream attached to the video surface all unchanged, whether
the track is active or inactive. -/
theorem C10_non_video_tracks_ignored (s : PanelModel) (t : MediaStreamTrack)
    (isOn : Bool) (ht : t.kind ≠ "video") :
    (onremotetrack s t isOn).streamState = s.streamState ∧
    (onremotetrack s t isOn).bitrateTimerRef = s.bitrateTimerRef ∧
    (onremotetrack s t isOn).liveTimers = s.liveTimers ∧
    (onremotetrack s t isOn).videoSrcObject = s.videoSrcObject := by
  cases isOn <;> simp [onremotetrack, appendLog, ht]

/-- C10 witness: a concrete active audio track and a concrete inactive
audio track, both at the initial panel state. -/
theorem C10_non_video_tracks_ignored_witness :
    ((onremotetrack initPanel ⟨"a1", "audio"⟩ true).streamState
        = initPanel.streamState ∧
      (onremotetrack initPanel ⟨"a1", "audio"⟩ true).bitrateTimerRef
        = initPanel.bitrateTimerRef ∧
      (onremotetrack initPanel ⟨"a1", "audio"⟩ true).liveTimers
        = initPanel.liveTimers ∧
      (onremotetrack initPanel ⟨"a1", "audio"⟩ true).videoSrcObject
        = initPanel.videoSrcObject) ∧
    (onremotetrack initPanel ⟨"a2", "audio"⟩ false).streamState
        = initPanel.streamState :=
  ⟨C10_non_video_tracks_ignored initPanel ⟨"a1", "audio"⟩ true (by decide),
   (C10_non_video_tracks_ignored initPanel ⟨"a2", "audio"⟩ false (by decide)).1⟩
